import Mathlib

/-!
Verification development for the scrimshady screen-capture compositor
(`src/main.rs`). The Rust program captures the desktop region behind a
borderless window through DXGI output duplication, pads the captured
sub-rectangle with an edge-extension compute pass, applies a selectable
pixel-shader effect and presents the result.

The definitions below are a shallow embedding of the pieces of
`src/main.rs` that the stated claims depend on:

* the boundary-extend geometry arithmetic of `handle_frame`
  (lines 1252-1266) and the clamped copy (lines 1356-1390);
* the `EXTEND_COMPUTE_SHADER` kernel (lines 98-126);
* the shader roster, initial shader index and accelerator table of
  `main` / `create_accelerators` (lines 377-389, 642-674, 726-791);
* the shader-select branch of the `wndproc` `WM_COMMAND` arm
  (lines 876-883);
* `compute_tile_brightness` (lines 1160-1205), with `f32` arithmetic
  embedded exactly over `ℚ`;
* the resource / duplication lifecycle: the `wndproc` `WM_SIZE` and
  `WM_PAINT` arms, `resize_swapchain`, the `handle_frame` lazy resource
  creation, `ReleaseFrameScope`, `acquire_dxgi_duplication_frame` and
  `capture_and_render_frame`, modelled as a state machine over the
  size-dependent resource set with an explicit event trace.
-/

namespace Scrimshady

/-! ## Boundary-extend geometry (`handle_frame`, lines 1243-1266) -/

/-- The four overhang distances and the extended texture size, exactly as
computed in `handle_frame`:
`extend_left = (-src_left).max(0)`, `extend_right = (src_right - screen_w).max(0)`,
`extended_width = width + extend_left + extend_right` (i32 arithmetic; no
overflow occurs for realistic window/screen sizes, so plain `ℤ`). -/
structure ExtendGeometry where
  extendLeft : ℤ
  extendTop : ℤ
  extendRight : ℤ
  extendBottom : ℤ
  extendedWidth : ℤ
  extendedHeight : ℤ
deriving DecidableEq, Repr

/-- `handle_frame` geometry: `width`/`height` are the client size from
`GetClientRect`, `srcLeft`/`srcTop` come from `state.source_rect`, and
`screenW`/`screenH` are the dimensions of the captured output. -/
def computeExtendGeometry (width height srcLeft srcTop screenW screenH : ℤ) :
    ExtendGeometry :=
  { extendLeft := max (-srcLeft) 0
    extendTop := max (-srcTop) 0
    extendRight := max (srcLeft + width - screenW) 0
    extendBottom := max (srcTop + height - screenH) 0
    extendedWidth := width + max (-srcLeft) 0 + max (srcLeft + width - screenW) 0
    extendedHeight := height + max (-srcTop) 0 + max (srcTop + height - screenH) 0 }

/-! ## The extend compute pass (`EXTEND_COMPUTE_SHADER` + the clamped copy) -/

/-- HLSL `clamp` on signed integers: `min(max(x, lo), hi)`. -/
def clampI (x lo hi : ℤ) : ℤ := min (max x lo) hi

/-- One thread of `EXTEND_COMPUTE_SHADER`: a destination position inside
`dstSize` reads the source texture at
`clamp(dstPos - srcOffset, 0, srcSize - 1)` on both axes and writes it out;
threads outside `dstSize` return without writing (`none`). -/
def extendShaderPixel (srcW srcH dstW dstH offX offY : ℤ) (src : ℤ → ℤ → α)
    (dstX dstY : ℤ) : Option α :=
  if 0 ≤ dstX ∧ dstX < dstW ∧ 0 ≤ dstY ∧ dstY < dstH then
    some (src (clampI (dstX - offX) 0 (srcW - 1)) (clampI (dstY - offY) 0 (srcH - 1)))
  else none

/-- Contents of the window-sized staging texture after the `handle_frame`
`CopySubresourceRegion`: the source box clamped to the screen is copied to
destination offset `(0, 0)`; every staging texel the copy did not write is
`none` (uninitialized or stale memory). Screen texels are `ℤ` colour codes. -/
def stagingAfterCopy (screen : ℤ → ℤ → ℤ) (width height srcLeft srcTop screenW screenH : ℤ) :
    ℤ → ℤ → Option ℤ :=
  fun x y =>
    let clampedLeft := min (max srcLeft 0) screenW
    let clampedTop := min (max srcTop 0) screenH
    let clampedRight := min (max (srcLeft + width) 0) screenW
    let clampedBottom := min (max (srcTop + height) 0) screenH
    if clampedLeft < clampedRight ∧ clampedTop < clampedBottom ∧
        0 ≤ x ∧ x < clampedRight - clampedLeft ∧ 0 ≤ y ∧ y < clampedBottom - clampedTop then
      some (screen (clampedLeft + x) (clampedTop + y))
    else none

/-- The extend pass end to end, as `handle_frame` dispatches it: the shader
constant buffer gets `src_size = client size`, `dst_size = extended size`,
`src_offset = (extend_left, extend_top)`, and the source texture is the
staging texture after the clamped copy. Outer `none` = destination position
outside the extended texture; inner `none` = the shader read a staging texel
the copy never wrote. -/
def extendPassPixel (screen : ℤ → ℤ → ℤ) (width height srcLeft srcTop screenW screenH
    dstX dstY : ℤ) : Option (Option ℤ) :=
  let g := computeExtendGeometry width height srcLeft srcTop screenW screenH
  extendShaderPixel width height g.extendedWidth g.extendedHeight g.extendLeft g.extendTop
    (fun x y => stagingAfterCopy screen width height srcLeft srcTop screenW screenH x y)
    dstX dstY

/-! ## Shader roster and selection (`main`, `create_accelerators`, `wndproc`) -/

/-- The fixed effect roster, by name. `main` builds the vector from
`shader_inputs = [passthru, wobbly, lightning, sorty]` and then pushes the
tiles shader. -/
inductive ShaderName where
  | passthru
  | wobbly
  | lightning
  | sorty
  | tiles
deriving DecidableEq, Repr

/-- The four simple pixel shaders compiled first (`shader_inputs`). -/
def shaderInputNames : List ShaderName :=
  [ShaderName.passthru, ShaderName.wobbly, ShaderName.lightning, ShaderName.sorty]

/-- The full roster in fixed order: the simple shaders plus the tiles shader
pushed at the end (`pixel_shaders.push` in `main`). -/
def pixelShaderNames : List ShaderName := shaderInputNames ++ [ShaderName.tiles]

/-- `ID_SHADER_BASE` accelerator command id. -/
def idShaderBase : ℕ := 2000

/-- `ID_SHADER_END = ID_SHADER_BASE + 10`. -/
def idShaderEnd : ℕ := idShaderBase + 10

/-- The accelerator table of `create_accelerators`: (needs Ctrl, virtual key,
command id). Keys 1 through 9 are 49..57 and map to
`ID_SHADER_BASE`..`ID_SHADER_BASE + 8`. -/
def accelTable : List (Bool × ℕ × ℕ) :=
  [(true, 83, 1001),    -- Ctrl-S: ID_SAVE
   (true, 65, 1002),    -- Ctrl-A: ID_ALWAYS_ON_TOP
   (false, 19, 1003),   -- VK_PAUSE: ID_TOGGLE_PAUSE
   (false, 49, idShaderBase),
   (false, 50, idShaderBase + 1),
   (false, 51, idShaderBase + 2),
   (false, 52, idShaderBase + 3),
   (false, 53, idShaderBase + 4),
   (false, 54, idShaderBase + 5),
   (false, 55, idShaderBase + 6),
   (false, 56, idShaderBase + 7),
   (false, 57, idShaderBase + 8)]

/-- Command id produced by a key press, per the accelerator table. -/
def accelCmdForKey (ctrl : Bool) (key : ℕ) : Option ℕ :=
  (accelTable.find? (fun e => e.1 == ctrl && e.2.1 == key)).map (fun e => e.2.2)

/-- The `ID_SHADER_BASE..ID_SHADER_END` match arm of the `wndproc` `WM_COMMAND`
handler: which roster index a command id addresses (the Rust range pattern is
half-open). -/
def wmCommandShaderIndex (cmd : ℕ) : Option ℕ :=
  if idShaderBase ≤ cmd ∧ cmd < idShaderEnd then some (cmd - idShaderBase) else none

/-- The bounds-checked shader switch:
`if idx < state.pixel_shaders.len() { state.current_shader = idx }`. -/
def selectShader (rosterLen cur k : ℕ) : ℕ :=
  if k < rosterLen then k else cur

/-! ## Theorems: C4, C1, C8 -/

/-- C4: for every client size and source rectangle, the extended texture size
equals the client size plus the overhang on each axis; the overhang on an
edge is zero exactly when the source rectangle is within screen bounds on
that edge, and otherwise equals the out-of-bounds distance. -/
theorem extend_geometry_spec (w h l t sw sh : ℤ) :
    (computeExtendGeometry w h l t sw sh).extendedWidth
      = w + (computeExtendGeometry w h l t sw sh).extendLeft
          + (computeExtendGeometry w h l t sw sh).extendRight ∧
    (computeExtendGeometry w h l t sw sh).extendedHeight
      = h + (computeExtendGeometry w h l t sw sh).extendTop
          + (computeExtendGeometry w h l t sw sh).extendBottom ∧
    (0 ≤ l → (computeExtendGeometry w h l t sw sh).extendLeft = 0) ∧
    (l < 0 → (computeExtendGeometry w h l t sw sh).extendLeft = -l) ∧
    (0 ≤ t → (computeExtendGeometry w h l t sw sh).extendTop = 0) ∧
    (t < 0 → (computeExtendGeometry w h l t sw sh).extendTop = -t) ∧
    (l + w ≤ sw → (computeExtendGeometry w h l t sw sh).extendRight = 0) ∧
    (sw < l + w → (computeExtendGeometry w h l t sw sh).extendRight = l + w - sw) ∧
    (t + h ≤ sh → (computeExtendGeometry w h l t sw sh).extendBottom = 0) ∧
    (sh < t + h → (computeExtendGeometry w h l t sw sh).extendBottom = t + h - sh) := by
  dsimp only [computeExtendGeometry]
  omega

/-- Witness for C4, at the scenario given by the spec: an 800×600 window whose left
edge sits 50px left of the screen origin has overhang 50 on the left and
extended width 850, while the same window fully on-screen has zero overhang
and extended width 800. -/
theorem extend_geometry_spec_witness :
    (computeExtendGeometry 800 600 (-50) 100 1920 1080).extendLeft = -(-50) ∧
    (computeExtendGeometry 800 600 (-50) 100 1920 1080).extendedWidth = 850 ∧
    (computeExtendGeometry 800 600 100 100 1920 1080).extendLeft = 0 ∧
    (computeExtendGeometry 800 600 100 100 1920 1080).extendedWidth = 800 := by
  refine ⟨(extend_geometry_spec 800 600 (-50) 100 1920 1080).2.2.2.1 (by decide), by decide,
    (extend_geometry_spec 800 600 100 100 1920 1080).2.2.1 (by decide), by decide⟩

/-- C1 (code bug): with a 100×100 screen and a 4×4 client window whose source
rectangle starts at column 98 (right overhang 2), the extend pass maps
destination pixel (4,0) to staging texel (3,0) — clamping to the staging
texture nominal width 4 rather than to the width 2 of the region the copy
actually wrote — so the output is an uninitialized/stale read (`some none`),
not the nearest valid edge pixel, which is staging texel (1,0) = screen
texel (99,0) = 99. The second conjunct evaluates that edge pixel. -/
theorem extendPass_stale_read_on_right_overhang :
    extendPassPixel (fun x y => x + 100 * y) 4 4 98 0 100 100 4 0 = some none ∧
    stagingAfterCopy (fun x y => x + 100 * y) 4 4 98 0 100 100 1 0 = some 99 := by
  decide

/-- C8: selecting shader index `k` sets the active index to `k` when `k` is
in range and leaves it unchanged (a silent no-op) when `k >=` roster length. -/
theorem selectShader_bounds (rosterLen cur k : ℕ) :
    (k < rosterLen → selectShader rosterLen cur k = k) ∧
    (rosterLen ≤ k → selectShader rosterLen cur k = cur) := by
  constructor
  · intro hk
    simp [selectShader, hk]
  · intro hk
    simp [selectShader, Nat.not_lt.mpr hk]

/-- Witness for C8 on the real 5-entry roster: index 7 is ignored, index 3
takes effect. -/
theorem selectShader_bounds_witness :
    selectShader pixelShaderNames.length 1 7 = 1 ∧
    selectShader pixelShaderNames.length 1 3 = 3 :=
  ⟨(selectShader_bounds pixelShaderNames.length 1 7).2 (by decide),
   (selectShader_bounds pixelShaderNames.length 1 3).1 (by decide)⟩

/-! ## Tile brightness table (`compute_tile_brightness`, lines 1160-1205)

The Rust function uses `f32`; the arithmetic is embedded exactly over `ℚ`
(every operation is the same expression, with `f32` rounding removed).
Pixels are a flat BGRA byte list, 4 bytes per pixel. -/

/-- Luma of the pixel whose blue byte sits at `idx`:
`0.299 * r + 0.587 * g + 0.114 * b` with channels scaled by `1/255`, and `0`
when the guard `pixel_index + 2 < pixels.len()` fails (the loop then adds
nothing to the running sum). -/
def pixelLuma (pixels : List ℕ) (idx : ℕ) : ℚ :=
  if idx + 2 < pixels.length then
    (299 / 1000) * ((pixels.getD (idx + 2) 0 : ℚ) / 255)
      + (587 / 1000) * ((pixels.getD (idx + 1) 0 : ℚ) / 255)
      + (114 / 1000) * ((pixels.getD idx 0 : ℚ) / 255)
  else 0

/-- Average brightness of one tile: the double loop over `sy`/`sx` sums the
per-pixel luma at byte index `((pixel_y * width + pixel_x) * 4)` and divides
by `tile_width * tile_height`. -/
def tileBrightness (pixels : List ℕ) (width tileW tileH tileRow tileCol : ℕ) : ℚ :=
  (∑ sy ∈ Finset.range tileH, ∑ sx ∈ Finset.range tileW,
      pixelLuma pixels (((tileRow * tileH + sy) * width + (tileCol * tileW + sx)) * 4))
    / ((tileW * tileH : ℕ) : ℚ)

/-- `compute_tile_brightness`: `tiles_per_row = width / tile_width`,
`tiles_per_col = height / tile_height` (integer division), one entry pushed
per `(tile_row, tile_col)` in row-major order. -/
def computeTileBrightness (pixels : List ℕ) (width height tileW tileH : ℕ) : List ℚ :=
  (List.range (height / tileH)).flatMap fun tileRow =>
    (List.range (width / tileW)).map fun tileCol =>
      tileBrightness pixels width tileW tileH tileRow tileCol

lemma computeTileBrightness_length (pixels : List ℕ) (width height tileW tileH : ℕ) :
    (computeTileBrightness pixels width height tileW tileH).length
      = (width / tileW) * (height / tileH) := by
  simp [computeTileBrightness, Function.comp_def, Nat.mul_comm]

lemma pixelLuma_nonneg (pixels : List ℕ) (idx : ℕ) : 0 ≤ pixelLuma pixels idx := by
  unfold pixelLuma
  split
  · positivity
  · exact le_refl 0

lemma getD_le_255 (pixels : List ℕ) (hpx : ∀ b ∈ pixels, b ≤ 255) (i : ℕ) :
    pixels.getD i 0 ≤ 255 := by
  rcases Nat.lt_or_ge i pixels.length with h | h
  · rw [List.getD_eq_getElem pixels 0 h]
    exact hpx _ (List.getElem_mem h)
  · rw [pixels.getD_eq_default 0 h]
    exact Nat.zero_le 255

lemma pixelLuma_le_one (pixels : List ℕ) (hpx : ∀ b ∈ pixels, b ≤ 255) (idx : ℕ) :
    pixelLuma pixels idx ≤ 1 := by
  unfold pixelLuma
  split
  · have hb : ((pixels.getD idx 0 : ℚ)) / 255 ≤ 1 := by
      rw [div_le_one (by norm_num)]
      exact_mod_cast getD_le_255 pixels hpx idx
    have hg : ((pixels.getD (idx + 1) 0 : ℚ)) / 255 ≤ 1 := by
      rw [div_le_one (by norm_num)]
      exact_mod_cast getD_le_255 pixels hpx (idx + 1)
    have hr : ((pixels.getD (idx + 2) 0 : ℚ)) / 255 ≤ 1 := by
      rw [div_le_one (by norm_num)]
      exact_mod_cast getD_le_255 pixels hpx (idx + 2)
    have hb0 : (0 : ℚ) ≤ (pixels.getD idx 0 : ℚ) / 255 := by positivity
    have hg0 : (0 : ℚ) ≤ (pixels.getD (idx + 1) 0 : ℚ) / 255 := by positivity
    have hr0 : (0 : ℚ) ≤ (pixels.getD (idx + 2) 0 : ℚ) / 255 := by positivity
    nlinarith
  · norm_num

lemma tileBrightness_mem_Icc (pixels : List ℕ) (hpx : ∀ b ∈ pixels, b ≤ 255)
    (width tileW tileH tileRow tileCol : ℕ) (htw : 0 < tileW) (hth : 0 < tileH) :
    0 ≤ tileBrightness pixels width tileW tileH tileRow tileCol ∧
      tileBrightness pixels width tileW tileH tileRow tileCol ≤ 1 := by
  have hpos : (0 : ℚ) < ((tileW * tileH : ℕ) : ℚ) := by
    exact_mod_cast Nat.mul_pos htw hth
  constructor
  · apply div_nonneg _ hpos.le
    apply Finset.sum_nonneg
    intro sy _
    apply Finset.sum_nonneg
    intro sx _
    exact pixelLuma_nonneg pixels _
  · unfold tileBrightness
    rw [div_le_one hpos]
    calc (∑ sy ∈ Finset.range tileH, ∑ sx ∈ Finset.range tileW,
            pixelLuma pixels (((tileRow * tileH + sy) * width + (tileCol * tileW + sx)) * 4))
        ≤ ∑ _sy ∈ Finset.range tileH, ∑ _sx ∈ Finset.range tileW, (1 : ℚ) := by
          apply Finset.sum_le_sum
          intro sy _
          apply Finset.sum_le_sum
          intro sx _
          exact pixelLuma_le_one pixels hpx _
      _ = ((tileW * tileH : ℕ) : ℚ) := by
          simp [Finset.sum_const, mul_comm]

/-- C9: the per-tile brightness table partitions the glyph sheet into
`width/tileW × height/tileH` tiles averaging the luma
`0.299R + 0.587G + 0.114B` over each tile; the table has exactly
`(width/tileW) * (height/tileH)` entries — `(128/8) * (256/16) = 256` for the
128×256 sheet with 8×16 tiles — and every entry lies in `[0, 1]` whenever
the pixel data is made of bytes. -/
theorem computeTileBrightness_spec (pixels : List ℕ) (width height tileW tileH : ℕ)
    (hpx : ∀ b ∈ pixels, b ≤ 255) :
    (computeTileBrightness pixels width height tileW tileH).length
      = (width / tileW) * (height / tileH) ∧
    (computeTileBrightness pixels 128 256 8 16).length = 256 ∧
    ∀ q ∈ computeTileBrightness pixels width height tileW tileH, 0 ≤ q ∧ q ≤ 1 := by
  refine ⟨computeTileBrightness_length pixels width height tileW tileH,
    (computeTileBrightness_length pixels 128 256 8 16).trans (by norm_num), ?_⟩
  intro q hq
  simp only [computeTileBrightness, List.mem_flatMap, List.mem_map, List.mem_range] at hq
  obtain ⟨tileRow, hrow, tileCol, hcol, rfl⟩ := hq
  have htw : 0 < tileW := by
    rcases Nat.eq_zero_or_pos tileW with h | h
    · simp [h] at hcol
    · exact h
  have hth : 0 < tileH := by
    rcases Nat.eq_zero_or_pos tileH with h | h
    · simp [h] at hrow
    · exact h
  exact tileBrightness_mem_Icc pixels hpx width tileW tileH tileRow tileCol htw hth

/-- Witness for C9 at a concrete one-pixel, one-tile sheet. -/
theorem computeTileBrightness_spec_witness :
    (computeTileBrightness [0, 255, 128, 7] 1 1 1 1).length = 1 * 1 ∧
    (computeTileBrightness [0, 255, 128, 7] 128 256 8 16).length = 256 ∧
    0 ≤ (computeTileBrightness [0, 255, 128, 7] 1 1 1 1).getD 0 0 ∧
    (computeTileBrightness [0, 255, 128, 7] 1 1 1 1).getD 0 0 ≤ 1 := by
  have h := computeTileBrightness_spec [0, 255, 128, 7] 1 1 1 1 (by decide)
  have hlen : 0 < (computeTileBrightness [0, 255, 128, 7] 1 1 1 1).length := by
    rw [h.1]
    norm_num
  have hmem : (computeTileBrightness [0, 255, 128, 7] 1 1 1 1).getD 0 0
      ∈ computeTileBrightness [0, 255, 128, 7] 1 1 1 1 := by
    rw [List.getD_eq_getElem _ _ hlen]
    exact List.getElem_mem hlen
  exact ⟨h.1, h.2.1, (h.2.2 _ hmem).1, (h.2.2 _ hmem).2⟩

/-! ## Session model: resources, duplication handle, frame loop

State machine over the `CaptureState` optional handles, with an explicit
event trace. GPU/OS calls that can fail are modelled by an `Outcome`
supplied per call by the environment (`GpuOutcomes` / `TickEnv` /
`ResizeEnv`); the state-transition and event structure is translated from
`wndproc`, `resize_swapchain`, `handle_frame`, `ReleaseFrameScope`,
`acquire_dxgi_duplication_frame` and `capture_and_render_frame`. -/

/-- Error codes distinguished by the program: `DXGI_ERROR_ACCESS_LOST`,
`DXGI_ERROR_WAIT_TIMEOUT`, and everything else (`fail n`). -/
inductive Err where
  | accessLost
  | waitTimeout
  | fail (n : ℕ)
deriving DecidableEq, Repr

/-- Result of one fallible GPU/OS call. -/
inductive Outcome where
  | ok
  | err (e : Err)
deriving DecidableEq, Repr

/-- Result of `handle_frame` / `capture_and_render_frame`: `Ok(())`,
`Err(e)`, or a Rust panic (an `unwrap` on `None`). -/
inductive FrameResult where
  | ok
  | err (e : Err)
  | panicked
deriving DecidableEq, Repr

/-- Observable events of one message-loop tick. -/
inductive Ev where
  | duplicateOutput        -- EnumOutputs(0) + DuplicateOutput on the adapter
  | acquireAttempt         -- AcquireNextFrame call issued
  | acquireOk              -- AcquireNextFrame returned a frame
  | releaseFrame           -- ReleaseFrame call issued
  | handleFrameStart       -- handle_frame entered
  | createStagingTex
  | createExtendedTex
  | createExtendedUav
  | createExtendedSrv
  | createStagingSrv
  | copyRegion             -- CopySubresourceRegion of the clamped box
  | dispatchExtend         -- compute-shader Dispatch
  | clearTarget            -- ClearRenderTargetView
  | draw                   -- Draw(4, 0)
  | present                -- swap_chain.Present(1, 0)
deriving DecidableEq, Repr

/-- The size-dependent handles of `CaptureState`, each carrying the size it
was created for (`none` = the `Option` field is `None`). -/
structure Resources where
  renderTargetView : Option (ℤ × ℤ)
  shaderResourceView : Option (ℤ × ℤ)
  stagingTexture : Option (ℤ × ℤ)
  extendedTexture : Option (ℤ × ℤ)
  extendedSrv : Option (ℤ × ℤ)
  extendedUav : Option (ℤ × ℤ)
deriving DecidableEq, Repr

/-- Environment-chosen outcomes for the fallible calls inside
`handle_frame`, in program order. -/
structure GpuOutcomes where
  createStagingTex : Outcome
  createExtendedTex : Outcome
  createExtendedUav : Outcome
  createExtendedSrv : Outcome
  createStagingSrv : Outcome
  mapExtendParams : Outcome
  mapTimeBuffer : Outcome
  mapTilesConstants : Outcome
  present : Outcome
deriving DecidableEq, Repr

/-- All GPU calls succeed. -/
def GpuOutcomes.allOk : GpuOutcomes :=
  ⟨Outcome.ok, Outcome.ok, Outcome.ok, Outcome.ok, Outcome.ok,
   Outcome.ok, Outcome.ok, Outcome.ok, Outcome.ok⟩

/-- Sequence two `handle_frame` steps: the second runs only if the first
finished `ok`; events accumulate, resource mutations persist across an
early error exit (the Rust question-mark operator leaves prior `state` writes in place). -/
def seqStep (a : List Ev × Resources × FrameResult)
    (f : Resources → List Ev × Resources × FrameResult) :
    List Ev × Resources × FrameResult :=
  match a with
  | (evs, res, FrameResult.ok) =>
    let b := f res
    (evs ++ b.1, b.2.1, b.2.2)
  | other => other

/-- `handle_frame` step 1: create the window-sized staging texture if absent
(lines 1269-1291). -/
def ensureStagingTexture (w h : ℤ) (oc : Outcome) (res : Resources) :
    List Ev × Resources × FrameResult :=
  match res.stagingTexture with
  | some _ => ([], res, FrameResult.ok)
  | none =>
    match oc with
    | Outcome.err e => ([Ev.createStagingTex], res, FrameResult.err e)
    | Outcome.ok =>
      ([Ev.createStagingTex], { res with stagingTexture := some (w, h) }, FrameResult.ok)

/-- `handle_frame` step 2: create the extended texture plus its UAV and SRV
if the texture is absent (lines 1294-1354). The texture field is written
before the UAV call and the UAV field before the SRV call, so a later
failure leaves the earlier writes in place, exactly as in the source. -/
def ensureExtendedResources (ew eh : ℤ) (ocTex ocUav ocSrv : Outcome) (res : Resources) :
    List Ev × Resources × FrameResult :=
  match res.extendedTexture with
  | some _ => ([], res, FrameResult.ok)
  | none =>
    match ocTex with
    | Outcome.err e => ([Ev.createExtendedTex], res, FrameResult.err e)
    | Outcome.ok =>
      let res1 := { res with extendedTexture := some (ew, eh) }
      match ocUav with
      | Outcome.err e => ([Ev.createExtendedTex, Ev.createExtendedUav], res1, FrameResult.err e)
      | Outcome.ok =>
        let res2 := { res1 with extendedUav := some (ew, eh) }
        match ocSrv with
        | Outcome.err e =>
          ([Ev.createExtendedTex, Ev.createExtendedUav, Ev.createExtendedSrv], res2,
            FrameResult.err e)
        | Outcome.ok =>
          ([Ev.createExtendedTex, Ev.createExtendedUav, Ev.createExtendedSrv],
            { res2 with extendedSrv := some (ew, eh) }, FrameResult.ok)

/-- `handle_frame` step 3: copy the source box clamped to the screen into
the staging texture, skipped when the clamped box is empty
(lines 1356-1390). `CopySubresourceRegion` itself cannot fail. -/
def copyValidRegion (w h srcLeft srcTop screenW screenH : ℤ) (res : Resources) :
    List Ev × Resources × FrameResult :=
  ((if min (max srcLeft 0) screenW < min (max (srcLeft + w) 0) screenW ∧
        min (max srcTop 0) screenH < min (max (srcTop + h) 0) screenH then
      [Ev.copyRegion]
    else []), res, FrameResult.ok)

/-- `handle_frame` step 4: create the SRV of the staging texture if absent
(lines 1392-1412). -/
def ensureStagingSrv (w h : ℤ) (oc : Outcome) (res : Resources) :
    List Ev × Resources × FrameResult :=
  match res.shaderResourceView with
  | some _ => ([], res, FrameResult.ok)
  | none =>
    match oc with
    | Outcome.err e => ([Ev.createStagingSrv], res, FrameResult.err e)
    | Outcome.ok =>
      ([Ev.createStagingSrv], { res with shaderResourceView := some (w, h) }, FrameResult.ok)

/-- `handle_frame` step 5: map/write the extend-params constant buffer, then
bind the staging SRV and extended UAV (both `unwrap`ped) and dispatch the
extend compute shader (lines 1414-1466). -/
def runExtendPass (ocMap : Outcome) (res : Resources) :
    List Ev × Resources × FrameResult :=
  match ocMap with
  | Outcome.err e => ([], res, FrameResult.err e)
  | Outcome.ok =>
    match res.shaderResourceView, res.extendedUav with
    | some _, some _ => ([Ev.dispatchExtend], res, FrameResult.ok)
    | _, _ => ([], res, FrameResult.panicked)

/-- `handle_frame` step 6: map/write the time constant buffer
(lines 1468-1486). -/
def updateTimeBuffer (ocMap : Outcome) (res : Resources) :
    List Ev × Resources × FrameResult :=
  match ocMap with
  | Outcome.err e => ([], res, FrameResult.err e)
  | Outcome.ok => ([], res, FrameResult.ok)

/-- `handle_frame` step 7: `unwrap` the render-target view, clear it, bind
the active shader (the tiles variant additionally maps its constant buffer,
and both variants `unwrap` the extended SRV), draw the quad and present
(lines 1488-1622). -/
def renderPass (tiles : Bool) (ocTiles ocPresent : Outcome) (res : Resources) :
    List Ev × Resources × FrameResult :=
  match res.renderTargetView with
  | none => ([], res, FrameResult.panicked)
  | some _ =>
    match res.extendedSrv with
    | none => ([Ev.clearTarget], res, FrameResult.panicked)
    | some _ =>
      match (if tiles then ocTiles else Outcome.ok) with
      | Outcome.err e => ([Ev.clearTarget], res, FrameResult.err e)
      | Outcome.ok =>
        match ocPresent with
        | Outcome.err e => ([Ev.clearTarget, Ev.draw, Ev.present], res, FrameResult.err e)
        | Outcome.ok => ([Ev.clearTarget, Ev.draw, Ev.present], res, FrameResult.ok)

/-- `handle_frame` in full: the seven steps above in program order, with the
extended size computed from the current client size, source rectangle and
screen size. -/
def handleFrame (res : Resources) (clientW clientH srcLeft srcTop screenW screenH : ℤ)
    (tiles : Bool) (oc : GpuOutcomes) : List Ev × Resources × FrameResult :=
  seqStep (seqStep (seqStep (seqStep (seqStep (seqStep
    (ensureStagingTexture clientW clientH oc.createStagingTex res)
    (ensureExtendedResources
      (computeExtendGeometry clientW clientH srcLeft srcTop screenW screenH).extendedWidth
      (computeExtendGeometry clientW clientH srcLeft srcTop screenW screenH).extendedHeight
      oc.createExtendedTex oc.createExtendedUav oc.createExtendedSrv))
    (copyValidRegion clientW clientH srcLeft srcTop screenW screenH))
    (ensureStagingSrv clientW clientH oc.createStagingSrv))
    (runExtendPass oc.mapExtendParams))
    (updateTimeBuffer oc.mapTimeBuffer))
    (renderPass tiles oc.mapTilesConstants oc.present)

/-- `ReleaseFrameScope`: an `Option` of the duplication borrow; `try_drop`
takes the option and calls `ReleaseFrame` exactly when it was still
`Some`, returning `Ok(())` otherwise. -/
structure ReleaseFrameScope where
  dup : Option Unit
deriving DecidableEq, Repr

/-- `ReleaseFrameScope::try_drop`: the updated scope, the events emitted and
the returned `Result`. `oc` is the outcome chosen by the environment for the
`ReleaseFrame` call itself. -/
def ReleaseFrameScope.tryDrop (s : ReleaseFrameScope) (oc : Outcome) :
    ReleaseFrameScope × List Ev × Outcome :=
  match s.dup with
  | some _ => (⟨none⟩, [Ev.releaseFrame], oc)
  | none => (s, [], Outcome.ok)

/-- Frame metadata from `AcquireNextFrame`: the `DXGI_OUTDUPL_FRAME_INFO` fields
`LastPresentTime` and whether the `Option<IDXGIResource>` was `Some`. -/
structure FrameInfo where
  lastPresentTime : ℤ
  hasResource : Bool
deriving DecidableEq, Repr

/-- Result of `AcquireNextFrame`. -/
inductive AcquireResult where
  | ok (f : FrameInfo)
  | err (e : Err)
deriving DecidableEq, Repr

/-- Environment inputs consumed by one `WM_PAINT` tick: outcomes of the
duplication (re)creation, the acquire, the GPU calls and the `ReleaseFrame`
call, plus the client and screen geometry the OS reports this tick. -/
structure TickEnv where
  duplicateOutput : Outcome
  acquire : AcquireResult
  gpu : GpuOutcomes
  releaseFrame : Outcome
  clientW : ℤ
  clientH : ℤ
  screenW : ℤ
  screenH : ℤ
deriving DecidableEq, Repr

/-- The mutable `CaptureState` fields the frame loop reads and writes. -/
structure SessionState where
  duplication : Option Unit
  resources : Resources
  srcLeft : ℤ
  srcTop : ℤ
  currentShader : ℕ
  paused : Bool
deriving DecidableEq, Repr

/-- `CaptureState` as built in `main`: no duplication handle, every
size-dependent handle `None`, `source_rect = RECT::default()`,
`current_shader: 1`, not paused. -/
def initialSession : SessionState :=
  { duplication := none
    resources := ⟨none, none, none, none, none, none⟩
    srcLeft := 0
    srcTop := 0
    currentShader := 1
    paused := false }

/-- The resource state right after a successful resize: render-target view
recreated at the client size, everything else cleared. -/
def freshResources (w h : ℤ) : Resources :=
  ⟨some (w, h), none, none, none, none, none⟩

/-- The body of `capture_and_render_frame` after the duplication handle
exists: acquire (timeout 0); on timeout return `Ok`; on another error
propagate; on success, if `LastPresentTime != 0` and the resource is
present run `handle_frame` (`?` drops the frame scope on error, releasing
it), then `frame.release()?`. The tiles branch is active when
`current_shader` is the tiles entry (index 4). -/
def captureAfterDup (st : SessionState) (io : TickEnv) :
    List Ev × SessionState × FrameResult :=
  match io.acquire with
  | AcquireResult.err e =>
    if e = Err.waitTimeout then ([Ev.acquireAttempt], st, FrameResult.ok)
    else ([Ev.acquireAttempt], st, FrameResult.err e)
  | AcquireResult.ok f =>
    if f.lastPresentTime ≠ 0 ∧ f.hasResource = true then
      let hf := handleFrame st.resources io.clientW io.clientH st.srcLeft st.srcTop
        io.screenW io.screenH (st.currentShader == 4) io.gpu
      let rd := ReleaseFrameScope.tryDrop ⟨some ()⟩ io.releaseFrame
      let evs := [Ev.acquireAttempt, Ev.acquireOk, Ev.handleFrameStart] ++ hf.1 ++ rd.2.1
      let result : FrameResult :=
        match hf.2.2 with
        | FrameResult.ok =>
          match rd.2.2 with
          | Outcome.ok => FrameResult.ok
          | Outcome.err e => FrameResult.err e
        | FrameResult.err e => FrameResult.err e
        | FrameResult.panicked => FrameResult.panicked
      (evs, { st with resources := hf.2.1 }, result)
    else
      let rd := ReleaseFrameScope.tryDrop ⟨some ()⟩ io.releaseFrame
      ([Ev.acquireAttempt, Ev.acquireOk] ++ rd.2.1, st,
        match rd.2.2 with
        | Outcome.ok => FrameResult.ok
        | Outcome.err e => FrameResult.err e)

/-- `capture_and_render_frame`: lazily (re)create the duplication handle by
duplicating the primary output (`EnumOutputs(0)`) of the bound adapter,
then run the acquire/handle/release body. -/
def captureAndRenderFrame (st : SessionState) (io : TickEnv) :
    List Ev × SessionState × FrameResult :=
  match st.duplication with
  | some _ => captureAfterDup st io
  | none =>
    match io.duplicateOutput with
    | Outcome.err e => ([Ev.duplicateOutput], st, FrameResult.err e)
    | Outcome.ok =>
      let c := captureAfterDup { st with duplication := some () } io
      (Ev.duplicateOutput :: c.1, c.2.1, c.2.2)

/-- the `wndproc` `WM_PAINT` arm: skip everything while paused; otherwise run
`capture_and_render_frame`; on error, print it (the log list) and drop the
duplication handle exactly when the code is `DXGI_ERROR_ACCESS_LOST`; the
handler always returns `LRESULT(0)`. The final `Bool` is `false` only if
the frame panicked (process death — nothing catches a panic here). -/
def wndprocPaint (st : SessionState) (io : TickEnv) :
    SessionState × List Ev × List Err × Bool :=
  if st.paused then (st, [], [], true)
  else
    let c := captureAndRenderFrame st io
    match c.2.2 with
    | FrameResult.ok => (c.2.1, c.1, [], true)
    | FrameResult.err e =>
      ({ c.2.1 with
          duplication := if e = Err.accessLost then none else c.2.1.duplication },
        c.1, [e], true)
    | FrameResult.panicked => (c.2.1, c.1, [], false)

/-- Environment outcomes for the `resize_swapchain` two fallible calls. -/
structure ResizeEnv where
  resizeBuffers : Outcome
  createRenderTarget : Outcome
deriving DecidableEq, Repr

/-- `resize_swapchain`: clear the render-target view and the staging SRV,
resize the swap chain to the new client size, then recreate the
render-target view eagerly; a failure leaves the cleared views cleared. -/
def resizeSwapchain (res : Resources) (w h : ℤ) (io : ResizeEnv) : Resources :=
  let res0 := { res with renderTargetView := none, shaderResourceView := none }
  match io.resizeBuffers with
  | Outcome.err _ => res0
  | Outcome.ok =>
    match io.createRenderTarget with
    | Outcome.err _ => res0
    | Outcome.ok => { res0 with renderTargetView := some (w, h) }

/-- the `wndproc` `WM_SIZE` arm: update `source_rect` from the new client
origin/size, clear the render-target view, staging texture, extended
texture and its two views, then call `resize_swapchain` (whose error, if
any, is swallowed). -/
def wndprocSize (st : SessionState) (w h newSrcLeft newSrcTop : ℤ) (io : ResizeEnv) :
    SessionState :=
  let cleared := { st.resources with
    renderTargetView := none
    stagingTexture := none
    extendedTexture := none
    extendedSrv := none
    extendedUav := none }
  { st with
      srcLeft := newSrcLeft
      srcTop := newSrcTop
      resources := resizeSwapchain cleared w h io }

/-- the `wndproc` `WM_MOVE` arm: update `source_rect` only. -/
def wndprocMove (st : SessionState) (newSrcLeft newSrcTop : ℤ) : SessionState :=
  { st with srcLeft := newSrcLeft, srcTop := newSrcTop }

/-- A run of consecutive `WM_PAINT` ticks; stops if a tick panicked. -/
def runPaintTicks : SessionState → List TickEnv → SessionState × List Ev × List Err × Bool
  | st, [] => (st, [], [], true)
  | st, io :: rest =>
    match wndprocPaint st io with
    | (st1, evs, logs, true) =>
      match runPaintTicks st1 rest with
      | (st2, evs2, logs2, alive) => (st2, evs ++ evs2, logs ++ logs2, alive)
    | (st1, evs, logs, false) => (st1, evs, logs, false)

/-! ## C3: acquire/release pairing -/

/-- Scan an event trace tracking whether an acquired frame is currently
outstanding. A new acquisition attempt (or a successful acquire) is legal
only with no frame outstanding; a release is legal only with a frame
outstanding. `none` = the discipline was violated; `some b` = the scan
ended with `b` telling whether a frame is still outstanding. -/
def pairedFrom : List Ev → Bool → Option Bool
  | [], b => some b
  | Ev.acquireAttempt :: rest, b => if b then none else pairedFrom rest false
  | Ev.acquireOk :: rest, b => if b then none else pairedFrom rest true
  | Ev.releaseFrame :: rest, b => if b then pairedFrom rest false else none
  | _ :: rest, b => pairedFrom rest b

/-- Events that are neither an acquisition nor a release. -/
def frameLocal : Ev → Bool
  | Ev.acquireAttempt => false
  | Ev.acquireOk => false
  | Ev.releaseFrame => false
  | _ => true

lemma pairedFrom_append (l1 l2 : List Ev) (b : Bool) :
    pairedFrom (l1 ++ l2) b
      = match pairedFrom l1 b with
        | none => none
        | some b1 => pairedFrom l2 b1 := by
  induction l1 generalizing b with
  | nil => simp [pairedFrom]
  | cons e rest ih =>
    cases e <;> cases b <;> simp [pairedFrom, ih]

lemma pairedFrom_of_local (l : List Ev) (b : Bool) (hl : ∀ e ∈ l, frameLocal e = true) :
    pairedFrom l b = some b := by
  induction l generalizing b with
  | nil => rfl
  | cons e rest ih =>
    have he := hl e (List.mem_cons_self e rest)
    have hrest : ∀ x ∈ rest, frameLocal x = true := fun x hx => hl x (List.mem_cons_of_mem e hx)
    cases e <;> simp [frameLocal] at he ⊢ <;> exact ih b hrest

lemma seqStep_local (a : List Ev × Resources × FrameResult)
    (f : Resources → List Ev × Resources × FrameResult)
    (ha : ∀ e ∈ a.1, frameLocal e = true)
    (hf : ∀ r, ∀ e ∈ (f r).1, frameLocal e = true) :
    ∀ e ∈ (seqStep a f).1, frameLocal e = true := by
  obtain ⟨evs, res, r⟩ := a
  cases r with
  | ok =>
    intro e he
    simp only [seqStep, List.mem_append] at he
    rcases he with he | he
    · exact ha e he
    · exact hf res e he
  | err e0 => exact ha
  | panicked => exact ha

lemma ensureStagingTexture_local (w h : ℤ) (oc : Outcome) (res : Resources) :
    ∀ e ∈ (ensureStagingTexture w h oc res).1, frameLocal e = true := by
  unfold ensureStagingTexture
  rcases res.stagingTexture with _ | s <;> rcases oc with _ | e <;>
    simp [frameLocal]

lemma ensureExtendedResources_local (ew eh : ℤ) (ocTex ocUav ocSrv : Outcome)
    (res : Resources) :
    ∀ e ∈ (ensureExtendedResources ew eh ocTex ocUav ocSrv res).1, frameLocal e = true := by
  unfold ensureExtendedResources
  rcases res.extendedTexture with _ | s <;>
    rcases ocTex with _ | e1 <;> rcases ocUav with _ | e2 <;> rcases ocSrv with _ | e3 <;>
    simp [frameLocal]

lemma copyValidRegion_local (w h srcLeft srcTop screenW screenH : ℤ) (res : Resources) :
    ∀ e ∈ (copyValidRegion w h srcLeft srcTop screenW screenH res).1, frameLocal e = true := by
  unfold copyValidRegion
  intro e he
  simp only at he
  split at he <;> simp at he
  subst he
  rfl

lemma ensureStagingSrv_local (w h : ℤ) (oc : Outcome) (res : Resources) :
    ∀ e ∈ (ensureStagingSrv w h oc res).1, frameLocal e = true := by
  unfold ensureStagingSrv
  rcases res.shaderResourceView with _ | s <;> rcases oc with _ | e <;>
    simp [frameLocal]

lemma runExtendPass_local (ocMap : Outcome) (res : Resources) :
    ∀ e ∈ (runExtendPass ocMap res).1, frameLocal e = true := by
  unfold runExtendPass
  rcases ocMap with _ | e1 <;>
    rcases res.shaderResourceView with _ | s1 <;> rcases res.extendedUav with _ | s2 <;>
    simp [frameLocal]

lemma updateTimeBuffer_local (ocMap : Outcome) (res : Resources) :
    ∀ e ∈ (updateTimeBuffer ocMap res).1, frameLocal e = true := by
  unfold updateTimeBuffer
  rcases ocMap with _ | e1 <;> simp

lemma renderPass_local (tiles : Bool) (ocTiles ocPresent : Outcome) (res : Resources) :
    ∀ e ∈ (renderPass tiles ocTiles ocPresent res).1, frameLocal e = true := by
  unfold renderPass
  rcases res.renderTargetView with _ | s1 <;> rcases res.extendedSrv with _ | s2 <;>
    rcases tiles with _ | _ <;> rcases ocTiles with _ | e1 <;> rcases ocPresent with _ | e2 <;>
    simp [frameLocal]

lemma handleFrame_local (res : Resources) (cw ch sl st sw sh : ℤ) (tiles : Bool)
    (oc : GpuOutcomes) :
    ∀ e ∈ (handleFrame res cw ch sl st sw sh tiles oc).1, frameLocal e = true := by
  unfold handleFrame
  apply seqStep_local
  apply seqStep_local
  apply seqStep_local
  apply seqStep_local
  apply seqStep_local
  apply seqStep_local
  · exact ensureStagingTexture_local cw ch oc.createStagingTex res
  · intro r
    exact ensureExtendedResources_local _ _ oc.createExtendedTex oc.createExtendedUav
      oc.createExtendedSrv r
  · intro r
    exact copyValidRegion_local cw ch sl st sw sh r
  · intro r
    exact ensureStagingSrv_local cw ch oc.createStagingSrv r
  · intro r
    exact runExtendPass_local oc.mapExtendParams r
  · intro r
    exact updateTimeBuffer_local oc.mapTimeBuffer r
  · intro r
    exact renderPass_local tiles oc.mapTilesConstants oc.present r

lemma pairedFrom_cons_local (e : Ev) (he : frameLocal e = true) (l : List Ev) (b : Bool) :
    pairedFrom (e :: l) b = pairedFrom l b := by
  cases e <;> first
    | rfl
    | simp [frameLocal] at he

lemma captureAfterDup_paired (st : SessionState) (io : TickEnv) :
    pairedFrom (captureAfterDup st io).1 false = some false := by
  unfold captureAfterDup
  rcases hacq : io.acquire with f | e
  · have hloc := pairedFrom_of_local
      (handleFrame st.resources io.clientW io.clientH st.srcLeft st.srcTop
        io.screenW io.screenH (st.currentShader == 4) io.gpu).1 true
      (handleFrame_local _ _ _ _ _ _ _ _ _)
    by_cases ht : f.lastPresentTime = 0
    · simp [ht, ReleaseFrameScope.tryDrop, pairedFrom]
    · by_cases hres : f.hasResource
      · simp [ht, hres, ReleaseFrameScope.tryDrop, pairedFrom, pairedFrom_append, hloc]
      · simp [ht, hres, ReleaseFrameScope.tryDrop, pairedFrom]
  · by_cases he : e = Err.waitTimeout <;> simp [he, pairedFrom]

lemma captureAndRenderFrame_paired (st : SessionState) (io : TickEnv) :
    pairedFrom (captureAndRenderFrame st io).1 false = some false := by
  unfold captureAndRenderFrame
  rcases st.duplication with _ | d
  · rcases io.duplicateOutput with _ | e
    · rw [pairedFrom_cons_local Ev.duplicateOutput rfl]
      exact captureAfterDup_paired _ io
    · rfl
  · exact captureAfterDup_paired st io

lemma wndprocPaint_paired (st : SessionState) (io : TickEnv) :
    pairedFrom (wndprocPaint st io).2.1 false = some false := by
  unfold wndprocPaint
  by_cases hp : st.paused
  · simp [hp, pairedFrom]
  · simp only [hp, if_false]
    rcases hr : (captureAndRenderFrame st io).2.2 <;>
      simpa [hr] using captureAndRenderFrame_paired st io

/-- C3: over any run of paint ticks, every successful frame acquisition is
followed by exactly one `ReleaseFrame` call before the next acquisition
attempt is issued — on the normal path, on the zero-present-time skip path
and on every error path during compositing — and release is never invoked
twice for one acquisition (the trace scan accepts, ending with no frame
outstanding). -/
theorem acquire_release_well_paired (st : SessionState) (ios : List TickEnv) :
    pairedFrom (runPaintTicks st ios).2.1 false = some false := by
  induction ios generalizing st with
  | nil => rfl
  | cons io rest ih =>
    rcases hw : wndprocPaint st io with ⟨st1, evs, logs, alive⟩
    have hpaired : pairedFrom evs false = some false := by
      have h0 := wndprocPaint_paired st io
      rw [hw] at h0
      exact h0
    rcases hrun : runPaintTicks st1 rest with ⟨st2, evs2, logs2, alive2⟩
    have h2 : pairedFrom evs2 false = some false := by
      have h0 := ih st1
      rw [hrun] at h0
      exact h0
    cases alive with
    | true =>
      have hstep : runPaintTicks st (io :: rest) = (st2, evs ++ evs2, logs ++ logs2, alive2) := by
        unfold runPaintTicks
        rw [hw]
        dsimp only
        rw [hrun]
      rw [hstep]
      simp only [pairedFrom_append, hpaired]
      exact h2
    | false =>
      have hstep : runPaintTicks st (io :: rest) = (st1, evs, logs, false) := by
        unfold runPaintTicks
        rw [hw]
      rw [hstep]
      exact hpaired

/-! ## C10: startup shader -/

/-- C10: the session starts with `current_shader: 1`, which in the fixed
roster order (passthru, wobbly, lightning, sorty, tiles) is the wobbly
shader, not the first entry; the ordinal-1 key (virtual key 49, no Ctrl)
produces command `ID_SHADER_BASE`, which selects index 0 — the passthrough
shader — so that key must be pressed to get passthrough. -/
theorem startup_shader_is_wobbly :
    initialSession.currentShader = 1 ∧
    pixelShaderNames.get? initialSession.currentShader = some ShaderName.wobbly ∧
    pixelShaderNames.get? 0 = some ShaderName.passthru ∧
    initialSession.currentShader ≠ 0 ∧
    pixelShaderNames
      = [ShaderName.passthru, ShaderName.wobbly, ShaderName.lightning,
         ShaderName.sorty, ShaderName.tiles] ∧
    accelCmdForKey false 49 = some idShaderBase ∧
    wmCommandShaderIndex idShaderBase = some 0 ∧
    selectShader pixelShaderNames.length initialSession.currentShader 0 = 0 := by
  decide

/-! ## C2: the size-dependent resource set across resize events -/

/-- The five-element size-dependent set named by the claim is fully absent. -/
def sizeSetAllAbsent (r : Resources) : Prop :=
  r.stagingTexture = none ∧ r.extendedTexture = none ∧ r.extendedSrv = none ∧
    r.extendedUav = none ∧ r.renderTargetView = none

/-- The five-element size-dependent set is fully present and mutually
size-consistent with client size `(w, h)` under source rectangle
`(l, t)` and screen size `(sw, sh)`: staging and render target at the
client size, the extended texture and both its views at the extended
size. -/
def sizeSetAllPresentConsistent (r : Resources) (w h l t sw sh : ℤ) : Prop :=
  r.stagingTexture = some (w, h) ∧
  r.extendedTexture = some ((computeExtendGeometry w h l t sw sh).extendedWidth,
    (computeExtendGeometry w h l t sw sh).extendedHeight) ∧
  r.extendedSrv = some ((computeExtendGeometry w h l t sw sh).extendedWidth,
    (computeExtendGeometry w h l t sw sh).extendedHeight) ∧
  r.extendedUav = some ((computeExtendGeometry w h l t sw sh).extendedWidth,
    (computeExtendGeometry w h l t sw sh).extendedHeight) ∧
  r.renderTargetView = some (w, h)

/-- C2 counterexample: one successful resize event (800×600, window fully
on a 1920×1080 screen) from the startup state leaves the set neither fully
absent nor fully present: the `wndproc` `WM_SIZE` arm clears the staging and
extended resources but `resize_swapchain` recreates the render-target view
eagerly inside the same event, so recreation of the whole set is not
deferred to the next frame. -/
theorem resize_eager_rtv_counterexample :
    ¬ (sizeSetAllAbsent
        (wndprocSize initialSession 800 600 0 0 ⟨Outcome.ok, Outcome.ok⟩).resources ∨
       sizeSetAllPresentConsistent
        (wndprocSize initialSession 800 600 0 0 ⟨Outcome.ok, Outcome.ok⟩).resources
        800 600 0 0 1920 1080) := by
  simp only [sizeSetAllAbsent, sizeSetAllPresentConsistent]
  decide

/-- A tick whose environment is entirely healthy: duplication creation
succeeds, the acquire returns a frame with present time `pt` and a
resource, every GPU call succeeds, and `ReleaseFrame` succeeds; the OS
reports client size `(w, h)` and screen size `(sw, sh)`. -/
def happyTick (pt w h sw sh : ℤ) : TickEnv :=
  { duplicateOutput := Outcome.ok
    acquire := AcquireResult.ok ⟨pt, true⟩
    gpu := GpuOutcomes.allOk
    releaseFrame := Outcome.ok
    clientW := w
    clientH := h
    screenW := sw
    screenH := sh }

/-- C2 as amended: a resize event atomically clears the staging texture,
the extended texture, both extended views and the staging SRV, whose
recreation is deferred to the next frame that needs them; the render-target
view, however, is recreated eagerly inside the resize handler at the new
client size. The next successful frame then recreates the rest lazily,
after which the whole size-dependent set is present and mutually
size-consistent with the latest client size. -/
theorem resize_invariant_amended (st : SessionState) (w h l t sw sh pt : ℤ)
    (hpt : pt ≠ 0) (hp : st.paused = false) (hdup : st.duplication = some ()) :
    (wndprocSize st w h l t ⟨Outcome.ok, Outcome.ok⟩).resources.stagingTexture = none ∧
    (wndprocSize st w h l t ⟨Outcome.ok, Outcome.ok⟩).resources.extendedTexture = none ∧
    (wndprocSize st w h l t ⟨Outcome.ok, Outcome.ok⟩).resources.extendedSrv = none ∧
    (wndprocSize st w h l t ⟨Outcome.ok, Outcome.ok⟩).resources.extendedUav = none ∧
    (wndprocSize st w h l t ⟨Outcome.ok, Outcome.ok⟩).resources.shaderResourceView = none ∧
    (wndprocSize st w h l t ⟨Outcome.ok, Outcome.ok⟩).resources.renderTargetView = some (w, h) ∧
    (wndprocPaint (wndprocSize st w h l t ⟨Outcome.ok, Outcome.ok⟩)
      (happyTick pt w h sw sh)).2.2.1 = [] ∧
    (wndprocPaint (wndprocSize st w h l t ⟨Outcome.ok, Outcome.ok⟩)
      (happyTick pt w h sw sh)).2.2.2 = true ∧
    sizeSetAllPresentConsistent
      (wndprocPaint (wndprocSize st w h l t ⟨Outcome.ok, Outcome.ok⟩)
        (happyTick pt w h sw sh)).1.resources w h l t sw sh ∧
    (wndprocPaint (wndprocSize st w h l t ⟨Outcome.ok, Outcome.ok⟩)
      (happyTick pt w h sw sh)).1.resources.shaderResourceView = some (w, h) := by
  simp [wndprocSize, resizeSwapchain, wndprocPaint, captureAndRenderFrame, captureAfterDup,
    handleFrame, seqStep, ensureStagingTexture, ensureExtendedResources, copyValidRegion,
    ensureStagingSrv, runExtendPass, updateTimeBuffer, renderPass, ReleaseFrameScope.tryDrop,
    GpuOutcomes.allOk, sizeSetAllPresentConsistent, happyTick, hp, hdup, hpt]

/-- Witness for the amended claim C2 at concrete inputs. -/
theorem resize_invariant_amended_witness :
    sizeSetAllPresentConsistent
      (wndprocPaint
        (wndprocSize { initialSession with duplication := some () } 800 600 (-50) 0
          ⟨Outcome.ok, Outcome.ok⟩)
        (happyTick 7 800 600 1920 1080)).1.resources 800 600 (-50) 0 1920 1080 ∧
    (wndprocSize { initialSession with duplication := some () } 800 600 (-50) 0
      ⟨Outcome.ok, Outcome.ok⟩).resources.stagingTexture = none := by
  have h := resize_invariant_amended { initialSession with duplication := some () }
    800 600 (-50) 0 1920 1080 7 (by decide) (by decide) (by decide)
  exact ⟨h.2.2.2.2.2.2.2.2.1, h.1⟩

/-! ## C5: resource-creation failure inside a frame -/

/-- A tick identical to `happyTick` except that the creation of the
extended-texture UAV inside `handle_frame` fails with `e`. The code stores
the extended texture itself before attempting the UAV, so this failure
leaves a partial resource set behind. -/
def uavFailTick (e : Err) (pt w h sw sh : ℤ) : TickEnv :=
  { happyTick pt w h sw sh with
      gpu := { GpuOutcomes.allOk with createExtendedUav := Outcome.err e } }

/-- C5 (code bug): when the extended-texture UAV creation fails inside a
frame — after the extended texture itself was created and stored — the
failing frame behaves as claimed (the error propagates out of the frame
handler, is logged, the frame is left un-rendered, the handler returns),
but the partial resource set survives: the extended texture is present
while its UAV and SRV are absent. The next paint tick, even with every
GPU call succeeding, skips the whole block guarded by
`extended_texture.is_none()` and then panics on the
`extended_uav.unwrap()` in the compute pass, ending the process instead
of being processed normally. Evaluated at an 800×600 window right after
a resize, fully on a 1920×1080 screen, with the UAV creation failing
with error `fail 3`: the final conjunct is the panic marker of the
following healthy tick. -/
theorem extended_uav_failure_panics_next_tick :
    (wndprocPaint
      { initialSession with duplication := some (), resources := freshResources 800 600 }
      (uavFailTick (Err.fail 3) 7 800 600 1920 1080)).2.2.1 = [Err.fail 3] ∧
    (wndprocPaint
      { initialSession with duplication := some (), resources := freshResources 800 600 }
      (uavFailTick (Err.fail 3) 7 800 600 1920 1080)).2.2.2 = true ∧
    Ev.present ∉ (wndprocPaint
      { initialSession with duplication := some (), resources := freshResources 800 600 }
      (uavFailTick (Err.fail 3) 7 800 600 1920 1080)).2.1 ∧
    Ev.draw ∉ (wndprocPaint
      { initialSession with duplication := some (), resources := freshResources 800 600 }
      (uavFailTick (Err.fail 3) 7 800 600 1920 1080)).2.1 ∧
    (wndprocPaint
      { initialSession with duplication := some (), resources := freshResources 800 600 }
      (uavFailTick (Err.fail 3) 7 800 600 1920 1080)).1.resources.extendedTexture
      = some (800, 600) ∧
    (wndprocPaint
      { initialSession with duplication := some (), resources := freshResources 800 600 }
      (uavFailTick (Err.fail 3) 7 800 600 1920 1080)).1.resources.extendedUav = none ∧
    (wndprocPaint
      (wndprocPaint
        { initialSession with duplication := some (), resources := freshResources 800 600 }
        (uavFailTick (Err.fail 3) 7 800 600 1920 1080)).1
      (happyTick 7 800 600 1920 1080)).2.2.2 = false := by
  decide

/-! ## C6: access-lost recovery -/

/-- C6: whenever capture or compositing in a tick reports "access lost", the
`WM_PAINT` handler drops the duplication handle and the session keeps
running; a subsequent capture attempt that finds no handle transparently
re-creates it (the first event of the tick is the `EnumOutputs(0)` +
`DuplicateOutput` call) and, with a healthy environment, renders normally
with no user-visible failure. -/
theorem access_lost_recovery :
    (∀ st io, st.paused = false →
      (captureAndRenderFrame st io).2.2 = FrameResult.err Err.accessLost →
      (wndprocPaint st io).1.duplication = none ∧
      (wndprocPaint st io).2.2.1 = [Err.accessLost] ∧
      (wndprocPaint st io).2.2.2 = true) ∧
    (∀ st (w h sw sh pt : ℤ), st.paused = false → st.duplication = none →
      st.resources = freshResources w h → pt ≠ 0 →
      ((wndprocPaint st (happyTick pt w h sw sh)).2.1.head? = some Ev.duplicateOutput ∧
       (wndprocPaint st (happyTick pt w h sw sh)).1.duplication = some () ∧
       Ev.present ∈ (wndprocPaint st (happyTick pt w h sw sh)).2.1 ∧
       (wndprocPaint st (happyTick pt w h sw sh)).2.2.1 = [] ∧
       (wndprocPaint st (happyTick pt w h sw sh)).2.2.2 = true)) := by
  constructor
  · intro st io hp hcap
    simp [wndprocPaint, hp, hcap]
  · intro st w h sw sh pt hp hdup hres hpt
    simp [wndprocPaint, captureAndRenderFrame, captureAfterDup, handleFrame, seqStep,
      ensureStagingTexture, ensureExtendedResources, copyValidRegion, ensureStagingSrv,
      runExtendPass, updateTimeBuffer, renderPass, freshResources, ReleaseFrameScope.tryDrop,
      GpuOutcomes.allOk, happyTick, hp, hdup, hres, hpt]

/-- Witness for C6: a tick whose acquire reports access-lost drops the
handle; the next healthy tick re-creates it and presents. -/
theorem access_lost_recovery_witness :
    (wndprocPaint { initialSession with duplication := some () }
      { happyTick 7 800 600 1920 1080 with
          acquire := AcquireResult.err Err.accessLost }).1.duplication = none ∧
    Ev.present ∈ (wndprocPaint
      { initialSession with resources := freshResources 800 600 }
      (happyTick 7 800 600 1920 1080)).2.1 := by
  have hA := access_lost_recovery.1 { initialSession with duplication := some () }
    { happyTick 7 800 600 1920 1080 with acquire := AcquireResult.err Err.accessLost }
    (by decide) (by decide)
  have hB := access_lost_recovery.2 { initialSession with resources := freshResources 800 600 }
    800 600 1920 1080 7 (by decide) (by decide) (by decide) (by decide)
  exact ⟨hA.1, hB.2.2.1⟩

/-! ## C7: skip classification -/

/-- C7: with the duplication handle in place, a successful `ReleaseFrame`
and the DXGI guarantee that a successful acquire carries a frame resource,
a capture tick is skipped without error exactly when the non-blocking
acquire reports `DXGI_ERROR_WAIT_TIMEOUT` or the acquired frame present
time is zero; the zero-present-time skip still releases the frame; and any
other acquisition failure is propagated to the caller. -/
theorem tick_skip_classification (st : SessionState) (io : TickEnv)
    (hdup : st.duplication = some ()) (hrel : io.releaseFrame = Outcome.ok)
    (hres : ∀ f, io.acquire = AcquireResult.ok f → f.hasResource = true) :
    (((captureAndRenderFrame st io).2.2 = FrameResult.ok ∧
        Ev.handleFrameStart ∉ (captureAndRenderFrame st io).1)
      ↔ (io.acquire = AcquireResult.err Err.waitTimeout ∨
          ∃ f, io.acquire = AcquireResult.ok f ∧ f.lastPresentTime = 0)) ∧
    (∀ e, io.acquire = AcquireResult.err e → e ≠ Err.waitTimeout →
      (captureAndRenderFrame st io).2.2 = FrameResult.err e) ∧
    (∀ f, io.acquire = AcquireResult.ok f → f.lastPresentTime = 0 →
      Ev.releaseFrame ∈ (captureAndRenderFrame st io).1 ∧
      (captureAndRenderFrame st io).2.2 = FrameResult.ok) := by
  rcases hacq : io.acquire with f | e
  · have hf := hres f hacq
    by_cases ht : f.lastPresentTime = 0
    · simp [captureAndRenderFrame, captureAfterDup, ReleaseFrameScope.tryDrop,
        hdup, hacq, hrel, ht, hf]
    · simp [captureAndRenderFrame, captureAfterDup, ReleaseFrameScope.tryDrop,
        hdup, hacq, hrel, ht, hf]
  · by_cases he : e = Err.waitTimeout
    · simp [captureAndRenderFrame, captureAfterDup, hdup, hacq, he]
    · simp [captureAndRenderFrame, captureAfterDup, hdup, hacq, he]

/-- Witness for C7: a timeout tick is a skip without error. -/
theorem tick_skip_classification_witness :
    (captureAndRenderFrame { initialSession with duplication := some () }
      { happyTick 0 800 600 1920 1080 with
          acquire := AcquireResult.err Err.waitTimeout }).2.2 = FrameResult.ok ∧
    Ev.handleFrameStart ∉ (captureAndRenderFrame
      { initialSession with duplication := some () }
      { happyTick 0 800 600 1920 1080 with
          acquire := AcquireResult.err Err.waitTimeout }).1 :=
  (tick_skip_classification { initialSession with duplication := some () }
    { happyTick 0 800 600 1920 1080 with acquire := AcquireResult.err Err.waitTimeout }
    (by decide) (by decide) (fun f hf => absurd hf (by simp))).1.mpr (Or.inl rfl)

end Scrimshady
